import Mathlib

/-!
Verification of the yuna aggregate health-check engine.

This file shallowly embeds the self-contained health-check core of the
yuna HTTP convenience layer: the `HealthStatus` enumeration and its
transport-code mapping, component registration (`RegisterHealthCheck`),
the readiness evaluation (`readyStatus`) with its per-check child
contexts and status fold, and the liveness/readiness endpoint handlers.

Conventions of the embedding:
  - Go `time.Duration` and `time.Time` are modelled as `Int`
    (nanosecond counts), `time.Second` as `10 ^ 9`.
  - A Go `context.Context` is modelled by its deadline alone
    (`Option Int`); `context.WithTimeout` follows its documented
    semantics: the child deadline is `now + d`, capped by the parent
    deadline when the parent has one.
  - The structured logger is modelled by the list of warning messages
    emitted so far; `logger.Warn msg` appends `msg`.
  - The concurrent fan-out/fan-in of `readyStatus` is sequentialized:
    each registered check is invoked exactly once and the per-check
    results are folded in list order.  Order-independence of the fold
    is proved separately, so the arbitrary channel-completion order of
    the original does not affect the overall status.
-/

namespace Yuna

/-- HealthStatus is a Go string type, not a closed enum: `type HealthStatus string`. -/
def HealthStatus : Type := String

instance : DecidableEq HealthStatus := String.decEq

def StatusUp : HealthStatus := "UP"

def StatusDegraded : HealthStatus := "DEGRADED"

def StatusDown : HealthStatus := "DOWN"

/-- Embeds the Go map `healthStatusToCode`: lookup returns `none` for keys absent
from the map literal. -/
def healthStatusToCode (s : HealthStatus) : Option Nat :=
  if s = StatusUp then some 200
  else if s = StatusDegraded then some 200
  else if s = StatusDown then some 503
  else none

/-- Embeds `HealthStatus.StatusCode`: map lookup with fall-back to 503 when the
key is missing. -/
def StatusCode (s : HealthStatus) : Nat :=
  match healthStatusToCode s with
  | none => 503
  | some code => code

/-- A Go context, reduced to the one observable the health core uses: its
deadline (none means no deadline). -/
structure Ctx where
  deadline : Option Int

/-- Models `context.WithTimeout(parent, d)` evaluated at instant `now`:
per the context package documentation the child deadline is `now + d`,
except that a parent deadline that is already earlier prevails. -/
def withTimeout (parent : Ctx) (now : Int) (d : Int) : Ctx :=
  match parent.deadline with
  | none => { deadline := some (now + d) }
  | some pd => { deadline := some (min pd (now + d)) }

/-- Embeds `ComponentRegistration`; the `Checker` interface value is its
`Check` function. -/
structure ComponentRegistration where
  Name : String
  Critical : Bool
  Checker : Ctx → HealthStatus
  Tags : List String
  Timeout : Int

/-- Embeds the `Component` entry of a health response. -/
structure Component where
  Name : String
  Status : HealthStatus
  Tags : List String
deriving DecidableEq

/-- Embeds `HealthResponse`. -/
structure HealthResponse where
  Status : HealthStatus
  Components : List Component
  Timestamp : Int

/-- Embeds the local `result` struct of `readyStatus`. -/
structure CheckResult where
  name : String
  critical : Bool
  status : HealthStatus
  tags : List String
deriving DecidableEq

/-- Runs one registered check as the per-component goroutine of `readyStatus`
does: derive the child context with the component timeout, invoke the checker
once, and package the result. -/
def runCheck (ctx : Ctx) (now : Int) (comp : ComponentRegistration) : CheckResult :=
  let child := withTimeout ctx now comp.Timeout
  { name := comp.Name
    critical := comp.Critical
    status := comp.Checker child
    tags := comp.Tags }

/-- The results gathered from the fan-out: exactly one invocation per
registered component. -/
def checkResults (ctx : Ctx) (now : Int)
    (components : List ComponentRegistration) : List CheckResult :=
  components.map (runCheck ctx now)

/-- One step of the status fold in the `for res := range results` loop of
`readyStatus`: the `switch res.status` statement acting on the running
overall status. -/
def foldStep (overall : HealthStatus) (res : CheckResult) : HealthStatus :=
  if res.status = StatusUp then
    overall
  else if res.status = StatusDegraded then
    if overall ≠ StatusDown then StatusDegraded else overall
  else if res.status = StatusDown then
    let afterCritical := if res.critical then StatusDown else overall
    if res.critical = false ∧ afterCritical ≠ StatusDown then StatusDegraded
    else afterCritical
  else
    overall

/-- Overall status computed by folding the per-check results, starting from
`StatusUp` as `readyStatus` initializes the response. -/
def overallStatus (results : List CheckResult) : HealthStatus :=
  results.foldl foldStep StatusUp

/-- Embeds `readyStatus`: run every registered check with its child context,
then build the response, folding each result into the overall status and
appending its component entry.  The Go loop interleaves the append and the
fold over the channel; here both traverse the same results list. -/
def readyStatus (ctx : Ctx) (now : Int)
    (components : List ComponentRegistration) : HealthResponse :=
  let results := checkResults ctx now components
  { Status := overallStatus results
    Components := results.map (fun r =>
      { Name := r.name, Status := r.status, Tags := r.tags })
    Timestamp := now }

/-- Embeds `healthcheckHandler`; the chi router field is HTTP glue and is
not part of the health core. -/
structure HealthcheckHandler where
  components : List ComponentRegistration

/-- Embeds `healthcheckHandler.register`: plain append, no deduplication. -/
def register (h : HealthcheckHandler) (c : ComponentRegistration) : HealthcheckHandler :=
  { h with components := h.components ++ [c] }

/-- Body written to an HTTP response: either raw bytes or the JSON encoding
of a health response. -/
inductive Body where
  | raw : String → Body
  | json : HealthResponse → Body

/-- An HTTP response as the handlers build it: headers set, status code
written, body written. -/
structure HttpResponse where
  headers : List (String × String)
  code : Nat
  body : Body

/-- Embeds `healthcheckHandler.live`: fixed headers, code 200 and the fixed
body; the receiver (and hence the registered checks) is never consulted. -/
def live (_h : HealthcheckHandler) : HttpResponse :=
  { headers :=
      [("Cache-Control", "no-cache, no-store, must-revalidate"),
       ("Pragma", "no-cache"),
       ("Expires", "0"),
       ("Content-Type", "application/json")]
    code := 200
    body := Body.raw "\x7b\"status\":\"UP\"\x7d" }

/-- Embeds `healthcheckHandler.ready`: evaluate `readyStatus`, set the
no-cache directives and the `X-Health-Status` header (the status `String()`
is the identity on the underlying string), write the mapped status code and
encode the response. -/
def ready (h : HealthcheckHandler) (ctx : Ctx) (now : Int) : HttpResponse :=
  let resp := readyStatus ctx now h.components
  { headers :=
      [("Cache-Control", "no-cache, no-store, must-revalidate"),
       ("Pragma", "no-cache"),
       ("Expires", "0"),
       ("X-Health-Status", resp.Status),
       ("Content-Type", "application/json")]
    code := StatusCode resp.Status
    body := Body.json resp }

/-- Models Go `time.Second` in nanoseconds. -/
def second : Int := 1000000000

/-- Embeds the relevant state of the `Yuna` struct: the health-check
enabled flag from its config, the health handler, and the warning messages
the logger has emitted. -/
structure YunaState where
  healthcheckEnabled : Bool
  healthHandler : HealthcheckHandler
  warnings : List String

/-- The warning `RegisterHealthCheck` logs when health checks are disabled. -/
def disabledWarning : String :=
  "Health checks are not enabled. This operation will have no impact."

/-- The warning `RegisterHealthCheck` logs for a zero timeout. -/
def noTimeoutWarning (name : String) : String :=
  "Health check " ++ name ++ " has no timeout. Setting to 1 second."

/-- Embeds `Yuna.RegisterHealthCheck`: warn if health checks are disabled,
substitute the 1-second default (with a warning) only when the timeout is
exactly zero, then register the component.  Registration never fails. -/
def RegisterHealthCheck (z : YunaState) (component : ComponentRegistration) : YunaState :=
  let z1 :=
    if z.healthcheckEnabled then z
    else { z with warnings := z.warnings ++ [disabledWarning] }
  if component.Timeout = 0 then
    let z2 := { z1 with warnings := z1.warnings ++ [noTimeoutWarning component.Name] }
    { z2 with healthHandler := register z2.healthHandler { component with Timeout := second } }
  else
    { z1 with healthHandler := register z1.healthHandler component }


/-- Per-check predicate fold characterizations: does any result come from a
critical component that reported DOWN? -/
def hasCriticalDown (rs : List CheckResult) : Bool :=
  rs.any (fun r => r.critical && decide (r.status = StatusDown))

/-- Does any result report DEGRADED, or DOWN from a non-critical component? -/
def hasDegradation (rs : List CheckResult) : Bool :=
  rs.any (fun r => decide (r.status = StatusDegraded) || (!r.critical && decide (r.status = StatusDown)))

/-- The deadline claimed for a child context: the minimum of the outer
deadline (when there is one) and the instant `now + timeout`. -/
def deadlineMin (outer : Option Int) (t : Int) : Int :=
  match outer with
  | none => t
  | some d => min d t

/-- A check function that always reports UP, used for concrete instances. -/
def alwaysUp : Ctx → HealthStatus := fun _ => StatusUp

/-- A concrete registration used as witness input. -/
def sampleReg : ComponentRegistration :=
  { Name := "db", Critical := true, Checker := alwaysUp, Tags := [], Timeout := second }

/-- A concrete registration with timeout zero. -/
def zeroTimeoutReg : ComponentRegistration :=
  { Name := "cache", Critical := false, Checker := alwaysUp, Tags := ["t"], Timeout := 0 }

/-- A concrete registration with a strictly negative timeout. -/
def negTimeoutReg : ComponentRegistration :=
  { Name := "queue", Critical := false, Checker := alwaysUp, Tags := [], Timeout := -5 }

/-- A concrete result reporting UP from a critical component. -/
def resUp : CheckResult :=
  { name := "a", critical := true, status := StatusUp, tags := [] }

/-- A concrete result reporting DOWN from a non-critical component. -/
def resDown : CheckResult :=
  { name := "b", critical := false, status := StatusDown, tags := [] }

/-- Two registrations sharing the name "svc". -/
def dupA : ComponentRegistration :=
  { Name := "svc", Critical := false, Checker := alwaysUp, Tags := [], Timeout := second }

/-- Second registration with the same name as `dupA`. -/
def dupB : ComponentRegistration :=
  { Name := "svc", Critical := true, Checker := alwaysUp, Tags := ["x"], Timeout := second }

/-- An aggregator state with health checks enabled and nothing registered. -/
def emptyState : YunaState :=
  { healthcheckEnabled := true, healthHandler := { components := [] }, warnings := [] }

/-- A handler with no registered components. -/
def emptyHandler : HealthcheckHandler := { components := [] }

/-- A context with no deadline. -/
def noDeadline : Ctx := { deadline := none }

lemma up_ne_degraded : StatusUp ≠ StatusDegraded := by decide

lemma up_ne_down : StatusUp ≠ StatusDown := by decide

lemma degraded_ne_up : StatusDegraded ≠ StatusUp := by decide

lemma degraded_ne_down : StatusDegraded ≠ StatusDown := by decide

lemma down_ne_up : StatusDown ≠ StatusUp := by decide

lemma down_ne_degraded : StatusDown ≠ StatusDegraded := by decide

lemma foldStep_char (o : HealthStatus) (r : CheckResult)
    (ho : o = StatusUp ∨ o = StatusDegraded ∨ o = StatusDown) :
    foldStep o r =
      if o = StatusDown ∨ (r.critical && decide (r.status = StatusDown)) = true then StatusDown
      else if o = StatusDegraded ∨
          (decide (r.status = StatusDegraded) || (!r.critical && decide (r.status = StatusDown))) = true
        then StatusDegraded
      else o := by
  by_cases h1 : r.status = StatusUp <;>
  by_cases h2 : r.status = StatusDegraded <;>
  by_cases h3 : r.status = StatusDown <;>
  rcases Bool.dichotomy r.critical with hc | hc <;>
  rcases ho with h | h | h <;> subst h <;>
    simp_all [foldStep, up_ne_degraded, up_ne_down, degraded_ne_up, degraded_ne_down,
      down_ne_up, down_ne_degraded]

lemma hasCriticalDown_cons (r : CheckResult) (rs : List CheckResult) :
    hasCriticalDown (r :: rs) =
      ((r.critical && decide (r.status = StatusDown)) || hasCriticalDown rs) := by
  simp [hasCriticalDown, List.any_cons]

lemma hasDegradation_cons (r : CheckResult) (rs : List CheckResult) :
    hasDegradation (r :: rs) =
      ((decide (r.status = StatusDegraded) || (!r.critical && decide (r.status = StatusDown)))
        || hasDegradation rs) := by
  simp [hasDegradation, List.any_cons]

set_option maxHeartbeats 2000000 in
lemma foldl_char (rs : List CheckResult) :
    ∀ (o : HealthStatus), (o = StatusUp ∨ o = StatusDegraded ∨ o = StatusDown) →
    rs.foldl foldStep o =
      if o = StatusDown ∨ hasCriticalDown rs = true then StatusDown
      else if o = StatusDegraded ∨ hasDegradation rs = true then StatusDegraded
      else o := by
  induction rs with
  | nil =>
    intro o ho
    rcases ho with h | h | h <;> subst h <;>
      simp [hasCriticalDown, hasDegradation, up_ne_degraded, up_ne_down,
        degraded_ne_up, degraded_ne_down, down_ne_up, down_ne_degraded]
  | cons r rs ih =>
    intro o ho
    have hmem : foldStep o r = StatusUp ∨ foldStep o r = StatusDegraded ∨
        foldStep o r = StatusDown := by
      rw [foldStep_char o r ho]
      rcases ho with h | h | h <;> subst h <;> split <;> try split
      all_goals simp
    rw [List.foldl_cons, ih (foldStep o r) hmem, foldStep_char o r ho,
      hasCriticalDown_cons, hasDegradation_cons]
    rcases ho with h | h | h <;> subst h <;>
    rcases Bool.dichotomy (r.critical && decide (r.status = StatusDown)) with hcd | hcd <;>
    rcases Bool.dichotomy (decide (r.status = StatusDegraded) ||
      (!r.critical && decide (r.status = StatusDown))) with hdg | hdg <;>
    rcases Bool.dichotomy (hasCriticalDown rs) with hC | hC <;>
    rcases Bool.dichotomy (hasDegradation rs) with hD | hD <;>
      simp [hcd, hdg, hC, hD, up_ne_degraded, up_ne_down, degraded_ne_up,
        degraded_ne_down, down_ne_up, down_ne_degraded]

lemma any_perm_eq (p : CheckResult → Bool) (rs₁ rs₂ : List CheckResult)
    (h : rs₁.Perm rs₂) : rs₁.any p = rs₂.any p := by
  induction h with
  | nil => rfl
  | cons x _ ih => simp [List.any_cons, ih]
  | swap x y l => simp [List.any_cons, Bool.or_left_comm]
  | trans _ _ ih1 ih2 => exact ih1.trans ih2

/-- C1: for every evaluation over a list of per-check results, the overall
status is DOWN exactly when some critical check returned DOWN; otherwise it
is DEGRADED exactly when some check returned DEGRADED or some non-critical
check returned DOWN; otherwise it is UP — in particular an evaluation with
zero registered checks reports UP. -/
theorem overallStatus_characterization (rs : List CheckResult) :
    (overallStatus rs =
      if hasCriticalDown rs = true then StatusDown
      else if hasDegradation rs = true then StatusDegraded
      else StatusUp)
    ∧ (hasCriticalDown rs = true ↔ ∃ r, r ∈ rs ∧ r.critical = true ∧ r.status = StatusDown)
    ∧ (hasDegradation rs = true ↔
        ∃ r, r ∈ rs ∧ (r.status = StatusDegraded ∨ (r.critical = false ∧ r.status = StatusDown)))
    ∧ (∀ (ctx : Ctx) (now : Int) (components : List ComponentRegistration),
        (readyStatus ctx now components).Status = overallStatus (checkResults ctx now components))
    ∧ ∀ (ctx : Ctx) (now : Int), (readyStatus ctx now []).Status = StatusUp := by
  refine ⟨?_, ?_, ?_, fun ctx now components => rfl, fun ctx now => rfl⟩
  · have h := foldl_char rs StatusUp (Or.inl rfl)
    rw [overallStatus, h]
    simp [up_ne_down, up_ne_degraded]
  · simp [hasCriticalDown, List.any_eq_true]
  · simp [hasDegradation, List.any_eq_true]

/-- C2: the fold reducing per-check results to the overall status is
order-independent — any permutation of the results yields the same overall
status. -/
theorem overallStatus_perm_invariant (rs₁ rs₂ : List CheckResult)
    (h : rs₁.Perm rs₂) : overallStatus rs₁ = overallStatus rs₂ := by
  have hc : hasCriticalDown rs₁ = hasCriticalDown rs₂ := any_perm_eq _ rs₁ rs₂ h
  have hd : hasDegradation rs₁ = hasDegradation rs₂ := any_perm_eq _ rs₁ rs₂ h
  rw [overallStatus, overallStatus, foldl_char rs₁ StatusUp (Or.inl rfl),
    foldl_char rs₂ StatusUp (Or.inl rfl), hc, hd]

/-- Witness for C2: swapping two concrete results leaves the overall status
unchanged. -/
theorem overallStatus_perm_invariant_witness :
    ([resUp, resDown].Perm [resDown, resUp])
    ∧ overallStatus [resUp, resDown] = overallStatus [resDown, resUp] :=
  ⟨List.Perm.swap resDown resUp [],
   overallStatus_perm_invariant [resUp, resDown] [resDown, resUp]
     (List.Perm.swap resDown resUp [])⟩

/-- C3: registering a component with timeout zero never fails, emits the
warning-level log message, and stores the registration with the default
1-second timeout. -/
theorem registerHealthCheck_zero_timeout (z : YunaState) (c : ComponentRegistration)
    (h : c.Timeout = 0) :
    (RegisterHealthCheck z c).healthHandler.components =
      z.healthHandler.components ++ [{ c with Timeout := second }]
    ∧ noTimeoutWarning c.Name ∈ (RegisterHealthCheck z c).warnings := by
  unfold RegisterHealthCheck
  by_cases he : z.healthcheckEnabled <;> simp [he, h, register]

/-- Witness for C3 at a concrete registration with timeout zero. -/
theorem registerHealthCheck_zero_timeout_witness :
    zeroTimeoutReg.Timeout = 0
    ∧ ((RegisterHealthCheck emptyState zeroTimeoutReg).healthHandler.components =
        emptyState.healthHandler.components ++ [{ zeroTimeoutReg with Timeout := second }]
      ∧ noTimeoutWarning zeroTimeoutReg.Name ∈
          (RegisterHealthCheck emptyState zeroTimeoutReg).warnings) :=
  ⟨rfl, registerHealthCheck_zero_timeout emptyState zeroTimeoutReg rfl⟩

/-- C4: the status-to-transport-code mapping sends UP and DEGRADED to 200,
DOWN to 503, and every other string value to the fail-safe DOWN code 503. -/
theorem statusCode_mapping :
    StatusCode StatusUp = 200 ∧ StatusCode StatusDegraded = 200
    ∧ StatusCode StatusDown = 503
    ∧ ∀ s : HealthStatus,
        s ≠ StatusUp → s ≠ StatusDegraded → s ≠ StatusDown → StatusCode s = 503 := by
  refine ⟨rfl, rfl, rfl, ?_⟩
  intro s h1 h2 h3
  simp [StatusCode, healthStatusToCode, h1, h2, h3]

/-- Witness for C4 at the out-of-enumeration value "INVALID". -/
theorem statusCode_mapping_witness :
    ("INVALID" : HealthStatus) ≠ StatusUp
    ∧ ("INVALID" : HealthStatus) ≠ StatusDegraded
    ∧ ("INVALID" : HealthStatus) ≠ StatusDown
    ∧ StatusCode "INVALID" = 503 :=
  ⟨by decide, by decide, by decide,
   statusCode_mapping.2.2.2 "INVALID" (by decide) (by decide) (by decide)⟩

/-- C5: the report carries exactly one component entry per registered check,
registration appends without deduplication by name, and registering two
same-named checks yields two entries. -/
theorem report_components_length (ctx : Ctx) (now : Int)
    (components : List ComponentRegistration) :
    (readyStatus ctx now components).Components.length = components.length
    ∧ (∀ (h : HealthcheckHandler) (c : ComponentRegistration),
        (register h c).components = h.components ++ [c])
    ∧ ∀ (h : HealthcheckHandler) (c₁ c₂ : ComponentRegistration), c₁.Name = c₂.Name →
        (readyStatus ctx now (register (register h c₁) c₂).components).Components.length
          = h.components.length + 2 := by
  refine ⟨by simp [readyStatus, checkResults], fun h c => rfl, ?_⟩
  intro h c₁ c₂ _
  simp [readyStatus, checkResults, register]

/-- Witness for C5 with two registrations sharing the name "svc". -/
theorem report_components_length_witness :
    dupA.Name = dupB.Name
    ∧ (readyStatus noDeadline 0
        (register (register emptyHandler dupA) dupB).components).Components.length
      = emptyHandler.components.length + 2 :=
  ⟨rfl, (report_components_length noDeadline 0 []).2.2 emptyHandler dupA dupB rfl⟩

/-- C6: the liveness handler returns transport code 200 with the fixed JSON
body regardless of the handler state, never consulting the registered
checks. -/
theorem live_fixed_response (h : HealthcheckHandler) :
    live h =
      { headers :=
          [("Cache-Control", "no-cache, no-store, must-revalidate"),
           ("Pragma", "no-cache"),
           ("Expires", "0"),
           ("Content-Type", "application/json")]
        code := 200
        body := Body.raw "\x7b\"status\":\"UP\"\x7d" }
    ∧ (live h).code = 200
    ∧ ∀ h₂ : HealthcheckHandler, live h = live h₂ :=
  ⟨rfl, rfl, fun _ => rfl⟩

/-- C7: the readiness handler sets the three no-cache directives, exposes
the computed overall status in the X-Health-Status header, and uses the
transport code of the overall status. -/
theorem ready_headers_and_code (h : HealthcheckHandler) (ctx : Ctx) (now : Int) :
    ("Cache-Control", "no-cache, no-store, must-revalidate") ∈ (ready h ctx now).headers
    ∧ ("Pragma", "no-cache") ∈ (ready h ctx now).headers
    ∧ ("Expires", "0") ∈ (ready h ctx now).headers
    ∧ ("X-Health-Status", (readyStatus ctx now h.components).Status) ∈ (ready h ctx now).headers
    ∧ (ready h ctx now).code = StatusCode (readyStatus ctx now h.components).Status := by
  refine ⟨?_, ?_, ?_, ?_, rfl⟩ <;> simp [ready]

/-- C8: every registered check is invoked exactly once per evaluation, on
the child context whose deadline is the minimum of the outer deadline and
now plus the check timeout. -/
theorem check_invocation_child_context (ctx : Ctx) (now : Int)
    (components : List ComponentRegistration) (i : Nat) (c : ComponentRegistration)
    (h : components[i]? = some c) :
    (checkResults ctx now components)[i]? = some (runCheck ctx now c)
    ∧ (runCheck ctx now c).status = c.Checker (withTimeout ctx now c.Timeout)
    ∧ (withTimeout ctx now c.Timeout).deadline = some (deadlineMin ctx.deadline (now + c.Timeout))
    ∧ (checkResults ctx now components).length = components.length := by
  refine ⟨?_, rfl, ?_, by simp [checkResults]⟩
  · simp [checkResults, h]
  · cases hd : ctx.deadline <;> simp [withTimeout, deadlineMin, hd]

/-- Witness for C8 at a singleton registration list. -/
theorem check_invocation_child_context_witness :
    ([sampleReg][0]? = some sampleReg)
    ∧ ((checkResults noDeadline 0 [sampleReg])[0]? = some (runCheck noDeadline 0 sampleReg)
      ∧ (runCheck noDeadline 0 sampleReg).status =
          sampleReg.Checker (withTimeout noDeadline 0 sampleReg.Timeout)
      ∧ (withTimeout noDeadline 0 sampleReg.Timeout).deadline =
          some (deadlineMin noDeadline.deadline (0 + sampleReg.Timeout))
      ∧ (checkResults noDeadline 0 [sampleReg]).length = [sampleReg].length) :=
  ⟨rfl, check_invocation_child_context noDeadline 0 [sampleReg] 0 sampleReg rfl⟩

/-- C10: a strictly negative timeout is stored unchanged by registration
(the default is substituted only at exactly zero), so the child context
derived for the check at any evaluation carries a deadline strictly before
the evaluation instant — it is created already expired. -/
theorem registerHealthCheck_negative_timeout (z : YunaState) (c : ComponentRegistration)
    (h : c.Timeout < 0) :
    (RegisterHealthCheck z c).healthHandler.components = z.healthHandler.components ++ [c]
    ∧ ∀ (ctx : Ctx) (now : Int),
        ∃ d, (withTimeout ctx now c.Timeout).deadline = some d ∧ d < now := by
  constructor
  · have hne : ¬ c.Timeout = 0 := by omega
    unfold RegisterHealthCheck
    by_cases he : z.healthcheckEnabled <;> simp [he, hne, register]
  · intro ctx now
    cases hd : ctx.deadline with
    | none => exact ⟨now + c.Timeout, by simp [withTimeout, hd], by omega⟩
    | some pd =>
        refine ⟨min pd (now + c.Timeout), by simp [withTimeout, hd], ?_⟩
        have hlt : now + c.Timeout < now := by omega
        exact lt_of_le_of_lt (min_le_right pd (now + c.Timeout)) hlt

/-- Witness for C10 at a concrete registration with timeout -5. -/
theorem registerHealthCheck_negative_timeout_witness :
    negTimeoutReg.Timeout < 0
    ∧ ((RegisterHealthCheck emptyState negTimeoutReg).healthHandler.components =
        emptyState.healthHandler.components ++ [negTimeoutReg]
      ∧ ∀ (ctx : Ctx) (now : Int),
          ∃ d, (withTimeout ctx now negTimeoutReg.Timeout).deadline = some d ∧ d < now) :=
  ⟨by decide, registerHealthCheck_negative_timeout emptyState negTimeoutReg (by decide)⟩

end Yuna
